import Mathlib

/-!
Verification of the transport/correlation core of the `os-sdk` client library.

The development shallowly embeds `src/transport.ts` (connection lifecycle,
newline-delimited framing, request/response correlation) together with the
response classification of `src/client.ts` and the error taxonomy of
`src/error.ts`.  JavaScript `Map` objects become association lists, promises
become settle-once waiter records, timers and socket callbacks become explicit
events, and the async stream generator becomes a small-step machine over its
control points.
-/

/-- Connection state of the transport (`ConnectionState` in `types.ts`). -/
inductive ConnState
  | disconnected
  | connecting
  | connected
deriving DecidableEq, Repr

/-- Tag of an incoming message (the `op` discriminator of `Response`). -/
inductive RespOp
  | ok
  | error
  | done
  | redirect
  | item
  | dataOp
  | event
  | progress
deriving DecidableEq, Repr

/-- Incoming message.  Tag-specific payload fields are modelled uniformly:
`code`/`message` are only meaningful for `error`-tagged messages, `data`
stands for the opaque key/value payload, `bytes` for the transportable byte
payload of `data`-tagged messages. -/
structure Response where
  id : String
  op : RespOp
  code : String := ""
  message : String := ""
  data : Option String := none
  bytes : String := ""
deriving DecidableEq, Repr

/-- Outgoing request (`Request` in `types.ts`); argument values are opaque. -/
structure Request where
  id : String
  call : String
  args : List String := []
deriving DecidableEq, Repr

/-- `isTerminal` of `types.ts` (staged after the separator inside
`src/src/client.ts`): a response is terminal when its op is `ok`, `error`,
`done` or `redirect`. -/
def isTerminal (r : Response) : Bool :=
  r.op == .ok || r.op == .error || r.op == .done || r.op == .redirect

/-- Type guard `isError` of `types.ts`: op is `error`. -/
def isError (r : Response) : Bool := r.op == .error

/-- Type guard `isOk` of `types.ts`: op is `ok`. -/
def isOk (r : Response) : Bool := r.op == .ok

/-- Type guard `isItem` of `types.ts`: op is `item`. -/
def isItem (r : Response) : Bool := r.op == .item

/-- How a pending promise finally settled. -/
inductive SettleOutcome
  | resolved (rs : List Response)
  | rejectedConn (code message : String)
  | rejectedTimeout
deriving DecidableEq, Repr

/-- A `PendingRequest` record of `transport.ts` plus the identity its timer
closure captured (`request.id`) and the settle-once status of its promise. -/
structure Waiter where
  reqId : String
  responses : List Response
  timerActive : Bool
  settled : Option SettleOutcome
deriving DecidableEq, Repr

/-- Default waiter used for total indexing into the waiter store. -/
def wDefault : Waiter := { reqId := "", responses := [], timerActive := false, settled := none }

/-- The waiter `send` registers for request id `x`. -/
def freshWaiter (x : String) : Waiter :=
  { reqId := x, responses := [], timerActive := true, settled := none }

/-- The waiter `stream` registers for request id `x` (no timer). -/
def freshStreamWaiter (x : String) : Waiter :=
  { reqId := x, responses := [], timerActive := false, settled := none }

/-- Settling a promise is a no-op when it is already settled. -/
def settleW (w : Waiter) (o : SettleOutcome) : Waiter :=
  if w.settled.isSome then w else { w with settled := some o }

/-- `clearTimeout` on a waiter's timer. -/
def clearTimerW (w : Waiter) : Waiter := { w with timerActive := false }

/-- Lookup in the `pending` map (`Map.get`). -/
def mapGet : List (String × Nat) → String → Option Nat
  | [], _ => none
  | p :: m, k => if p.1 = k then some p.2 else mapGet m k

/-- `Map.set`: overwrite the entry in place when the key exists (a `Map`
never holds a key twice), else append at the end. -/
def mapSet : List (String × Nat) → String → Nat → List (String × Nat)
  | [], k, v => [(k, v)]
  | p :: m, k, v => if p.1 = k then (k, v) :: m else p :: mapSet m k v

/-- `Map.delete`. -/
def mapDelete : List (String × Nat) → String → List (String × Nat)
  | [], _ => []
  | p :: m, k => if p.1 = k then mapDelete m k else p :: mapDelete m k

/-- Update the waiter at index `i` of the store. -/
def setW (ws : List Waiter) (i : Nat) (f : Waiter → Waiter) : List Waiter :=
  ws.set i (f (ws.getD i wDefault))

/-- Whole-transport state.  `pending` maps request ids to indices into
`waiters` (tokens); the indirection models the fact that a `PendingRequest`
object and its captured closures outlive their routing-table entry. -/
structure TS where
  connState : ConnState
  socket : Bool
  attemptPending : Bool
  pending : List (String × Nat)
  waiters : List Waiter
  nextId : Nat
deriving DecidableEq, Repr

/-- A freshly constructed `Transport`. -/
def TS.init : TS :=
  { connState := .disconnected, socket := false, attemptPending := false,
    pending := [], waiters := [], nextId := 1 }

/-- Failure conditions raised by transport operations. -/
inductive TErr
  | connErr (code message : String)
  | timeoutErr
deriving DecidableEq, Repr

/-- `connect` up to its first suspension: the state-precondition check and the
transition to `connecting` with a fresh in-flight attempt. -/
def connectBegin (s : TS) : TS × Option TErr :=
  if s.connState ≠ ConnState.disconnected then
    (s, some (.connErr "EISCONN" "Already connected or connecting"))
  else
    ({ s with connState := .connecting, attemptPending := true }, none)

/-- The socket `open` callback: clear the timer, store the handle, resolve.
The handle is stored unconditionally; only the promise resolution (and hence
the `connected` transition) is guarded by the promise being unsettled. -/
def attemptOpen (s : TS) : TS × Bool :=
  if s.attemptPending then
    ({ s with socket := true, attemptPending := false, connState := .connected }, true)
  else
    ({ s with socket := true }, false)

/-- The connect timeout timer firing: reject the attempt promise, after which
`connect`'s catch block returns the state to `disconnected`. -/
def attemptTimeout (s : TS) : TS × Option TErr :=
  if s.attemptPending then
    ({ s with attemptPending := false, connState := .disconnected }, some .timeoutErr)
  else
    (s, none)

/-- The socket `error`/`connectError` callback during connect: reject with a
connection-refused condition; `connect`'s catch block restores
`disconnected`. -/
def attemptRefused (s : TS) (msg : String) : TS × Option TErr :=
  if s.attemptPending then
    ({ s with attemptPending := false, connState := .disconnected },
      some (.connErr "ECONNREFUSED" msg))
  else
    (s, none)

/-- The teardown loop shared by `close` and `onClose`: clear each pending
waiter's timer, reject it with a connection-reset failure, in table order. -/
def closeFold (entries : List (String × Nat)) (ws : List Waiter) : List Waiter :=
  entries.foldl
    (fun acc p =>
      setW acc p.2 (fun w => settleW (clearTimerW w) (.rejectedConn "ECONNRESET" "Connection closed")))
    ws

/-- `close()`: end the socket if present, state to `disconnected`, reject and
remove every pending waiter. -/
def close (s : TS) : TS :=
  { s with socket := false, connState := .disconnected,
           waiters := closeFold s.pending s.waiters, pending := [] }

/-- `onClose()`: identical teardown triggered by the stream ending. -/
def onCloseEv (s : TS) : TS :=
  { s with socket := false, connState := .disconnected,
           waiters := closeFold s.pending s.waiters, pending := [] }

/-- Result of a `send` call. -/
inductive SendResult
  | notConnected
  | registered (tok : Nat)
  | writeFailed (tok : Nat)
deriving DecidableEq, Repr

/-- `send(request, timeout)`: precondition check, waiter registration
(overwriting any entry already keyed by `request.id`), then the frame write,
whose success is an external input `writeOk`.  On write failure the entry is
deleted, the timer cleared and the promise rejected with an I/O condition. -/
def send (s : TS) (req : Request) (writeOk : Bool) : TS × SendResult :=
  if s.socket = false ∨ s.connState ≠ ConnState.connected then
    (s, .notConnected)
  else
    let tok := s.waiters.length
    let s1 : TS := { s with waiters := s.waiters ++ [freshWaiter req.id],
                            pending := mapSet s.pending req.id tok }
    if writeOk then
      (s1, .registered tok)
    else
      ({ s1 with pending := mapDelete s1.pending req.id,
                 waiters := setW s1.waiters tok
                   (fun w => settleW (clearTimerW w) (.rejectedConn "EIO" "")) },
        .writeFailed tok)

/-- The synchronous head of `stream(request)` as run by the first pull: the
precondition check and the registration of a timer-less waiter. -/
def streamStart (s : TS) (req : Request) : TS × Option TErr :=
  if s.socket = false ∨ s.connState ≠ ConnState.connected then
    (s, some (.connErr "ENOTCONN" "Not connected"))
  else
    ({ s with waiters := s.waiters ++ [freshStreamWaiter req.id],
              pending := mapSet s.pending req.id s.waiters.length },
      none)

/-- `onResponse(response)`: route the message to the waiter registered under
its id (drop it if none), append it, and on a terminal tag clear the timer,
remove the entry and resolve with the accumulated list. -/
def onResponse (s : TS) (r : Response) : TS :=
  match mapGet s.pending r.id with
  | none => s
  | some tok =>
    let w0 := s.waiters.getD tok wDefault
    let w1 := { w0 with responses := w0.responses ++ [r] }
    if isTerminal r then
      { s with pending := mapDelete s.pending r.id,
               waiters := s.waiters.set tok (settleW (clearTimerW w1) (.resolved w1.responses)) }
    else
      { s with waiters := s.waiters.set tok w1 }

/-- The per-request timeout timer of the waiter at token `tok` firing: delete
the routing-table entry keyed by the id the closure captured, then reject that
waiter's promise with a timeout condition.  A cleared timer never fires. -/
def timerFire (s : TS) (tok : Nat) : TS :=
  let w := s.waiters.getD tok wDefault
  if w.timerActive then
    { s with pending := mapDelete s.pending w.reqId,
             waiters := s.waiters.set tok (settleW (clearTimerW w) .rejectedTimeout) }
  else
    s

/-- `generateId()`: render the counter, then post-increment it. -/
def generateId (s : TS) : String × TS :=
  (Nat.repr s.nextId, { s with nextId := s.nextId + 1 })

/-- The ids produced by `n` successive `generateId` calls. -/
def genIds (s : TS) : Nat → List String
  | 0 => []
  | n + 1 => (generateId s).1 :: genIds (generateId s).2 n

/-- Whether a frame is empty or whitespace-only (the `line.trim()` guard of
`onData`). -/
def isBlankFrame (l : List Char) : Bool := l.all (fun c => c.isWhitespace)

/-- Split an accumulated byte buffer at every newline delimiter: the list of
complete frames found, in order and with the delimiter stripped, together
with the unconsumed remainder (the scanning loop of `onData`). -/
def splitFrames : List Char → List (List Char) × List Char
  | [] => ([], [])
  | c :: rest =>
    let pr := splitFrames rest
    if c = '\n' then
      ([] :: pr.1, pr.2)
    else
      match pr.1 with
      | [] => ([], c :: pr.2)
      | f :: fs => ((c :: f) :: fs, pr.2)

/-- Rebuild a buffer from complete frames and a trailing remainder. -/
def joinFrames (fs : List (List Char)) (rem : List Char) : List Char :=
  fs.foldr (fun f acc => f ++ '\n' :: acc) rem

/-- `onData(chunk)`: append the chunk to the buffer, extract every complete
frame, skip blank frames, parse each remaining frame (a parse failure is
silently discarded), and hand the parsed messages to dispatch in order.  The
host JSON parser is an external collaborator, abstracted as `parse`.  Returns
the dispatched messages and the new buffer contents. -/
def onData (parse : List Char → Option Response) (buffer chunk : List Char) :
    List Response × List Char :=
  let pr := splitFrames (buffer ++ chunk)
  ((pr.1.filter (fun f => !isBlankFrame f)).filterMap parse, pr.2)

/-- Control point at which the `stream` generator body is suspended. -/
inductive SCtl
  | loopHead
  | awaitRes
  | yieldedPt (r : Response)
  | endedOk
  | endedErr
deriving DecidableEq, Repr

/-- State of one `stream` exchange: the queue/resolver plumbing of the
generator (`queue`, `done`, `error`, `resolver`), the value a called resolver
is about to hand to the suspended `await` (`handed`, with `some none`
standing for an iterator result with `done: true`), the messages yielded to
the consumer so far, and the suspension point. -/
structure SState where
  queue : List Response
  doneFlag : Bool
  errored : Bool
  resolverSet : Bool
  handed : Option (Option Response)
  yielded : List Response
  ctl : SCtl
deriving DecidableEq, Repr

/-- Stream state right after the generator wrote the request frame. -/
def sInit : SState :=
  { queue := [], doneFlag := false, errored := false, resolverSet := false,
    handed := none, yielded := [], ctl := .loopHead }

/-- Exiting the iteration loop: throw the recorded error if any. -/
def exitLoop (s : SState) : SState :=
  if s.errored then { s with ctl := .endedErr } else { s with ctl := .endedOk }

/-- Run the generator from the loop head to its next suspension point: exit
when `done` or `error` is set, otherwise shift and yield a queued message, or
install a resolver and await the next delivery. -/
def runLoopHead (s : SState) : SState :=
  if s.doneFlag || s.errored then
    exitLoop s
  else
    match s.queue with
    | r :: rest => { s with queue := rest, yielded := s.yielded ++ [r], ctl := .yieldedPt r }
    | [] => { s with resolverSet := true, ctl := .awaitRes }

/-- Events driving one `stream` exchange: a message dispatched to its id, the
reject handler firing (close/reset), a consumer pull, and the microtask that
resumes the generator after its resolver was called. -/
inductive SEvent
  | deliver (r : Response)
  | errSignal
  | pull
  | resume
deriving DecidableEq, Repr

/-- One event step of the `stream` machine, following the handler,
`errorHandler` and generator-body code of `transport.ts`. -/
def streamStep (s : SState) (e : SEvent) : SState :=
  match e with
  | .deliver r =>
    let s1 := { s with doneFlag := s.doneFlag || isTerminal r }
    if s1.resolverSet then
      { s1 with resolverSet := false, handed := some (some r) }
    else
      { s1 with queue := s1.queue ++ [r] }
  | .errSignal =>
    let s1 := { s with errored := true }
    if s1.resolverSet then
      { s1 with resolverSet := false, handed := some none }
    else
      s1
  | .pull =>
    match s.ctl with
    | .loopHead => runLoopHead s
    | .yieldedPt r =>
      if isTerminal r then exitLoop s else runLoopHead { s with ctl := .loopHead }
    | _ => s
  | .resume =>
    match s.ctl, s.handed with
    | .awaitRes, some (some r) =>
      { s with handed := none, yielded := s.yielded ++ [r], ctl := .yieldedPt r }
    | .awaitRes, some none => exitLoop { s with handed := none }
    | _, _ => s

/-- Run the `stream` machine over a sequence of events. -/
def runStream (evs : List SEvent) : SState := evs.foldl streamStep sInit

/-- Failure surfaced by the client layer: a protocol error reported by the
remote (`SyscallError`), or a transport-level `ConnectionError` or
`TimeoutError` propagating through. -/
inductive CallFailure
  | syscallFail (code message : String) (syscallName : Option String)
  | connectionFail (code message : String)
  | timeoutFail (message : String)
deriving DecidableEq, Repr

/-- `OSClient.call`: classify the response list `transport.send` resolved
with (`client.ts` lines 95-119). -/
def callClassify (name : String) (responses : List Response) :
    Except CallFailure (Option String) :=
  match responses with
  | [] => .error (.syscallFail "EIO" "No response received" (some name))
  | r :: _ =>
    if isError r then .error (.syscallFail r.code r.message (some name))
    else if isOk r then .ok (some (r.data.getD ""))
    else if isItem r then .ok r.data
    else .error (.syscallFail "EIO" "Unexpected response op" (some name))

/-- Decimal value of a big-endian digit string, used to invert `Nat.repr`. -/
def decVal : List Char → Nat
  | [] => 0
  | c :: cs => (c.toNat - 48) * 10 ^ cs.length + decVal cs

/-! Helper lemmas about total list indexing and the association-list map. -/

lemma getD_of_ge {α : Type} (l : List α) (i : Nat) (d : α) (h : l.length ≤ i) :
    l.getD i d = d := by
  induction l generalizing i with
  | nil => simp [List.getD]
  | cons x xs ih =>
    cases i with
    | zero => simp at h
    | succ n =>
      simp only [List.length_cons] at h
      simpa [List.getD] using ih n (by omega)

lemma getD_set_self {α : Type} (l : List α) (i : Nat) (a d : α) (h : i < l.length) :
    (l.set i a).getD i d = a := by
  induction l generalizing i with
  | nil => simp at h
  | cons x xs ih =>
    cases i with
    | zero => rfl
    | succ n =>
      simp only [List.length_cons] at h
      simpa [List.set, List.getD] using ih n (by omega)

lemma getD_set_ne {α : Type} (l : List α) (i j : Nat) (a d : α) (h : j ≠ i) :
    (l.set i a).getD j d = l.getD j d := by
  induction l generalizing i j with
  | nil => rfl
  | cons x xs ih =>
    cases i with
    | zero =>
      cases j with
      | zero => exact absurd rfl h
      | succ n => rfl
    | succ m =>
      cases j with
      | zero => rfl
      | succ n => simpa [List.set, List.getD] using ih m n (by omega)

lemma getD_append_left {α : Type} (l l' : List α) (i : Nat) (d : α) (h : i < l.length) :
    (l ++ l').getD i d = l.getD i d := by
  induction l generalizing i with
  | nil => simp at h
  | cons x xs ih =>
    cases i with
    | zero => rfl
    | succ n =>
      simp only [List.length_cons] at h
      simpa [List.getD] using ih n (by omega)

lemma getD_append_length {α : Type} (l : List α) (a d : α) :
    (l ++ [a]).getD l.length d = a := by
  induction l with
  | nil => rfl
  | cons x xs ih => simpa [List.getD] using ih

lemma mapGet_mem {m : List (String × Nat)} {k : String} {v : Nat}
    (h : mapGet m k = some v) : (k, v) ∈ m := by
  induction m with
  | nil => simp [mapGet] at h
  | cons p m ih =>
    by_cases hp : p.1 = k
    · obtain ⟨a, b⟩ := p
      simp only at hp
      subst hp
      simp only [mapGet, if_pos] at h
      simp only [Option.some.injEq] at h
      subst h
      exact List.mem_cons_self _ _
    · simp only [mapGet, if_neg hp] at h
      exact List.mem_cons_of_mem _ (ih h)

lemma mapGet_delete_self (m : List (String × Nat)) (k : String) :
    mapGet (mapDelete m k) k = none := by
  induction m with
  | nil => rfl
  | cons p m ih =>
    by_cases hp : p.1 = k
    · simpa [mapDelete, hp] using ih
    · simpa [mapGet, mapDelete, hp] using ih

lemma mapGet_delete_ne (m : List (String × Nat)) (k k' : String) (h : k' ≠ k) :
    mapGet (mapDelete m k) k' = mapGet m k' := by
  induction m with
  | nil => rfl
  | cons p m ih =>
    have hk : k ≠ k' := fun e => h e.symm
    by_cases hp : p.1 = k
    · simpa [mapDelete, hp, mapGet, hk] using ih
    · by_cases hq : p.1 = k'
      · simp [mapDelete, hp, mapGet, hq, h]
      · simpa [mapDelete, hp, mapGet, hq] using ih

lemma mapGet_set_self (m : List (String × Nat)) (k : String) (v : Nat) :
    mapGet (mapSet m k v) k = some v := by
  induction m with
  | nil => simp [mapSet, mapGet]
  | cons p m ih =>
    by_cases hp : p.1 = k
    · simp [mapSet, hp, mapGet]
    · simpa [mapSet, hp, mapGet] using ih

lemma mapGet_set_ne (m : List (String × Nat)) (k k' : String) (v : Nat) (h : k' ≠ k) :
    mapGet (mapSet m k v) k' = mapGet m k' := by
  induction m with
  | nil =>
    have hk : k ≠ k' := fun e => h e.symm
    simp [mapSet, mapGet, hk]
  | cons p m ih =>
    have hk : k ≠ k' := fun e => h e.symm
    by_cases hp : p.1 = k
    · simp [mapSet, hp, mapGet, hk]
    · by_cases hq : p.1 = k'
      · simp [mapSet, hp, mapGet, hq, h]
      · simpa [mapSet, hp, mapGet, hq] using ih

/-! Frame extraction: splitting at each newline is exact. -/

lemma splitFrames_no_delim (l : List Char) (h : '\n' ∉ l) : splitFrames l = ([], l) := by
  induction l with
  | nil => rfl
  | cons c rest ih =>
    have hc : ¬(c = '\n') := fun e => h (e ▸ List.mem_cons_self c rest)
    have hr : '\n' ∉ rest := fun hm => h (List.mem_cons_of_mem _ hm)
    simp [splitFrames, hc, ih hr]

lemma splitFrames_cons_frame (f rest : List Char) (h : '\n' ∉ f) :
    splitFrames (f ++ '\n' :: rest) =
      (f :: (splitFrames rest).1, (splitFrames rest).2) := by
  induction f with
  | nil => simp [splitFrames]
  | cons c f' ih =>
    have hc : ¬(c = '\n') := fun e => h (e ▸ List.mem_cons_self c f')
    have hf : '\n' ∉ f' := fun hm => h (List.mem_cons_of_mem _ hm)
    simp [splitFrames, hc, ih hf]

lemma splitFrames_join (fs : List (List Char)) (rem : List Char)
    (hfs : ∀ f ∈ fs, '\n' ∉ f) (hrem : '\n' ∉ rem) :
    splitFrames (joinFrames fs rem) = (fs, rem) := by
  induction fs with
  | nil => simpa [joinFrames] using splitFrames_no_delim rem hrem
  | cons f fs' ih =>
    have hf : '\n' ∉ f := hfs f (List.mem_cons_self f fs')
    have hfs' : ∀ g ∈ fs', '\n' ∉ g := fun g hg => hfs g (List.mem_cons_of_mem _ hg)
    have hstep := splitFrames_cons_frame f (joinFrames fs' rem) hf
    have hj : joinFrames (f :: fs') rem = f ++ '\n' :: joinFrames fs' rem := rfl
    rw [hj, hstep, ih hfs']

/-- Claim C5: for every buffer content and arriving chunk, `onData` appends
the chunk, extracts each complete newline-delimited frame in order with the
delimiter stripped, skips empty or whitespace-only frames, silently discards
frames the parser rejects without affecting later frames, dispatches each
parsed message in arrival order (frames concatenated in one chunk are each
dispatched individually), and leaves exactly the unconsumed partial frame in
the buffer. -/
theorem onData_extracts_frames_in_order (parse : List Char → Option Response)
    (buffer chunk : List Char) (fs : List (List Char)) (rem : List Char)
    (hfs : ∀ f ∈ fs, '\n' ∉ f) (hrem : '\n' ∉ rem)
    (hjoin : buffer ++ chunk = joinFrames fs rem) :
    onData parse buffer chunk =
      ((fs.filter (fun f => !isBlankFrame f)).filterMap parse, rem) := by
  simp [onData, hjoin, splitFrames_join fs rem hfs hrem]

/-- A parser for the witness: recognizes exactly two concrete frames. -/
def parseTwo (l : List Char) : Option Response :=
  if l = ['a', 'b'] then some { id := "1", op := RespOp.item, data := some "ab" }
  else if l = ['c', 'd'] then some { id := "1", op := RespOp.item, data := some "cd" }
  else none

/-- Witness for C5: two frames concatenated in one chunk (with a blank frame
and an unparseable frame interleaved) are dispatched individually in order,
and the trailing partial frame stays buffered. -/
theorem onData_extracts_frames_witness :
    onData parseTwo [] ('a' :: 'b' :: '\n' :: '\n' :: 'z' :: '\n' :: 'c' :: 'd' :: '\n' :: 'p' :: []) =
      ([{ id := "1", op := RespOp.item, data := some "ab" },
        { id := "1", op := RespOp.item, data := some "cd" }], ['p']) := by
  have := onData_extracts_frames_in_order parseTwo []
    ('a' :: 'b' :: '\n' :: '\n' :: 'z' :: '\n' :: 'c' :: 'd' :: '\n' :: 'p' :: [])
    [['a', 'b'], [], ['z'], ['c', 'd']] ['p']
    (by decide) (by decide) (by decide)
  rw [this]
  decide

/-- Claim C8: state-error preconditions are checked before any I/O.
`connect` in a non-`disconnected` state fails with the
"already connected or connecting" condition leaving the state unchanged, and
`send`/`stream` in a non-`connected` state fail with the "not connected"
condition; in each case the returned state is untouched, so no frame is
written and no waiter is registered. -/
theorem state_preconditions_before_io (s : TS) (req : Request) (w : Bool) :
    (s.connState ≠ ConnState.disconnected →
      connectBegin s = (s, some (.connErr "EISCONN" "Already connected or connecting")))
    ∧ (s.connState ≠ ConnState.connected →
      send s req w = (s, .notConnected))
    ∧ (s.connState ≠ ConnState.connected →
      streamStart s req = (s, some (.connErr "ENOTCONN" "Not connected"))) := by
  refine ⟨fun h => ?_, fun h => ?_, fun h => ?_⟩
  · simp [connectBegin, h]
  · simp [send, h]
  · simp [streamStart, h]

/-- Witness for C8 at concrete states: a connecting transport refuses
`connect`, a fresh disconnected transport refuses `send` and `stream`. -/
theorem state_preconditions_witness :
    connectBegin { TS.init with connState := ConnState.connecting } =
      ({ TS.init with connState := ConnState.connecting },
        some (.connErr "EISCONN" "Already connected or connecting"))
    ∧ send TS.init { id := "1", call := "proc:getpid" } true = (TS.init, .notConnected)
    ∧ streamStart TS.init { id := "1", call := "file:readdir" } =
      (TS.init, some (.connErr "ENOTCONN" "Not connected")) :=
  ⟨(state_preconditions_before_io { TS.init with connState := ConnState.connecting }
      { id := "1", call := "proc:getpid" } true).1 (by decide),
   (state_preconditions_before_io TS.init { id := "1", call := "proc:getpid" } true).2.1
      (by decide),
   (state_preconditions_before_io TS.init { id := "1", call := "file:readdir" } true).2.2
      (by decide)⟩

/-- Counterexample for C9: start a connect attempt on a fresh transport and
let the timeout timer fire first.  `connect` rejects with a timeout condition
and the state returns to `disconnected` — but when the in-flight attempt then
completes, the `open` callback still stores the stream handle into the
transport's socket field, so a live stream handle IS installed, contradicting
the claim that the late result leaves no handle installed. -/
theorem connect_lateOpen_installs_handle :
    (attemptTimeout (connectBegin TS.init).1).2 = some TErr.timeoutErr
    ∧ (attemptTimeout (connectBegin TS.init).1).1.connState = ConnState.disconnected
    ∧ (attemptOpen (attemptTimeout (connectBegin TS.init).1).1).1.socket = true := by
  decide

/-- Claim C9 (amended): when the connect timeout fires before the stream
opens, `connect` fails with a timeout condition and the state returns to
`disconnected`; a late completion of the in-flight attempt does not resolve
the connect promise and does not change the connection state — the transport
still reports not-connected to `send` — but the late stream handle is stored
in the socket field. -/
theorem connect_timeout_discards_result (s : TS) (req : Request) (w : Bool)
    (h1 : s.connState = ConnState.connecting) (h2 : s.attemptPending = true) :
    (attemptTimeout s).2 = some TErr.timeoutErr
    ∧ (attemptTimeout s).1.connState = ConnState.disconnected
    ∧ (attemptOpen (attemptTimeout s).1).2 = false
    ∧ (attemptOpen (attemptTimeout s).1).1.connState = ConnState.disconnected
    ∧ (attemptOpen (attemptTimeout s).1).1.socket = true
    ∧ send (attemptOpen (attemptTimeout s).1).1 req w =
        ((attemptOpen (attemptTimeout s).1).1, .notConnected) := by
  refine ⟨?_, ?_, ?_, ?_, ?_, ?_⟩ <;>
    simp [attemptTimeout, attemptOpen, send, h1, h2]

/-- Witness for C9 (amended) on the reachable connecting state of a fresh
transport. -/
theorem connect_timeout_discards_witness :
    (attemptTimeout (connectBegin TS.init).1).2 = some TErr.timeoutErr
    ∧ send (attemptOpen (attemptTimeout (connectBegin TS.init).1).1).1
        { id := "1", call := "proc:getpid" } true =
      ((attemptOpen (attemptTimeout (connectBegin TS.init).1).1).1, .notConnected) := by
  have := connect_timeout_discards_result (connectBegin TS.init).1
    { id := "1", call := "proc:getpid" } true (by decide) (by decide)
  exact ⟨this.1, this.2.2.2.2.2⟩

/-- First streamed item for the C2 scenario. -/
def sItem1 : Response := { id := "1", op := RespOp.item, data := some "one" }

/-- Second streamed item for the C2 scenario. -/
def sItem2 : Response := { id := "1", op := RespOp.item, data := some "two" }

/-- Third streamed item for the C2 scenario. -/
def sItem3 : Response := { id := "1", op := RespOp.item, data := some "three" }

/-- Terminal `done` message for the C2 scenario. -/
def sDone : Response := { id := "1", op := RespOp.done }

/-- Claim C2 evaluated at its failing input: the consumer pulls and suspends,
then one data chunk delivers the three `item` messages and the `done` message
together, so the first item is handed to the waiting resolver and the rest
are queued while the terminal message sets the generator's `done` flag.  When
the generator resumes it yields the first item, and at the next pull the loop
condition `!done` is already false, so the sequence ends after yielding only
that first item — the two queued items and the terminal message are silently
dropped, not yielded as the claim requires. -/
theorem stream_drops_queued_after_terminal :
    (runStream [SEvent.pull, .deliver sItem1, .deliver sItem2, .deliver sItem3,
        .deliver sDone, .resume, .pull]).yielded = [sItem1]
    ∧ (runStream [SEvent.pull, .deliver sItem1, .deliver sItem2, .deliver sItem3,
        .deliver sDone, .resume, .pull]).ctl = SCtl.endedOk := by
  decide

/-! Dispatch lemmas: how `onResponse` acts on the routing table. -/

lemma onResponse_drop (s : TS) (r : Response) (h : mapGet s.pending r.id = none) :
    onResponse s r = s := by
  simp [onResponse, h]

/-- Appending a routed message to a waiter's accumulated list. -/
def appendResp (w : Waiter) (r : Response) : Waiter :=
  { w with responses := w.responses ++ [r] }

lemma onResponse_nonterminal (s : TS) (r : Response) (tok : Nat)
    (h : mapGet s.pending r.id = some tok) (hterm : isTerminal r = false) :
    onResponse s r =
      { s with waiters := s.waiters.set tok (appendResp (s.waiters.getD tok wDefault) r) } := by
  simp [onResponse, h, hterm, appendResp]

lemma onResponse_terminal (s : TS) (r : Response) (tok : Nat)
    (h : mapGet s.pending r.id = some tok) (hterm : isTerminal r = true) :
    onResponse s r =
      { s with pending := mapDelete s.pending r.id,
               waiters := s.waiters.set tok
                 (settleW (clearTimerW (appendResp (s.waiters.getD tok wDefault) r))
                   (.resolved ((s.waiters.getD tok wDefault).responses ++ [r]))) } := by
  simp [onResponse, h, hterm, appendResp]

lemma foldl_onResponse_nonterminal (msgs : List Response) (s : TS) (x : String) (tok : Nat)
    (hmap : mapGet s.pending x = some tok) (htok : tok < s.waiters.length)
    (hm : ∀ m ∈ msgs, m.id = x ∧ isTerminal m = false) :
    (msgs.foldl onResponse s).pending = s.pending
    ∧ (msgs.foldl onResponse s).waiters.length = s.waiters.length
    ∧ (msgs.foldl onResponse s).waiters.getD tok wDefault =
        { s.waiters.getD tok wDefault with
          responses := (s.waiters.getD tok wDefault).responses ++ msgs }
    ∧ (∀ j, j ≠ tok → (msgs.foldl onResponse s).waiters.getD j wDefault =
        s.waiters.getD j wDefault) := by
  induction msgs generalizing s with
  | nil => exact ⟨rfl, rfl, by simp, fun j hj => rfl⟩
  | cons m ms ih =>
    obtain ⟨hid, hterm⟩ := hm m (List.mem_cons_self m ms)
    have hmapm : mapGet s.pending m.id = some tok := by rw [hid]; exact hmap
    have hstep := onResponse_nonterminal s m tok hmapm hterm
    have h1 : (onResponse s m).pending = s.pending := by rw [hstep]
    have h2 : (onResponse s m).waiters.length = s.waiters.length := by
      rw [hstep]
      exact List.length_set _ _ _
    have h3 : mapGet (onResponse s m).pending x = some tok := by rw [h1]; exact hmap
    have h4 : tok < (onResponse s m).waiters.length := by rw [h2]; exact htok
    have h5 : ∀ g ∈ ms, g.id = x ∧ isTerminal g = false :=
      fun g hg => hm g (List.mem_cons_of_mem _ hg)
    have h6 : (onResponse s m).waiters.getD tok wDefault =
        appendResp (s.waiters.getD tok wDefault) m := by
      rw [hstep]
      exact getD_set_self _ _ _ _ htok
    have h7 : ∀ j, j ≠ tok →
        (onResponse s m).waiters.getD j wDefault = s.waiters.getD j wDefault := by
      intro j hj
      rw [hstep]
      exact getD_set_ne _ _ _ _ _ hj
    have hrec := ih (onResponse s m) h3 h4 h5
    have hfold : (m :: ms).foldl onResponse s = ms.foldl onResponse (onResponse s m) := rfl
    refine ⟨?_, ?_, ?_, ?_⟩
    · rw [hfold, hrec.1, h1]
    · rw [hfold, hrec.2.1, h2]
    · rw [hfold, hrec.2.2.1, h6]
      simp [appendResp]
    · intro j hj
      rw [hfold, hrec.2.2.2 j hj, h7 j hj]

/-- Claim C3: a `send` whose id receives only non-terminal messages followed
by one terminal message (with no timeout, write failure or close in between)
resolves with the full list of messages in arrival order; the resolved list
ends with exactly one terminal message, and in particular a single matching
`ok` message resolves the future with exactly that one message. -/
theorem send_resolves_full_ordered_list (s : TS) (x : String) (tok : Nat)
    (msgs : List Response) (t : Response)
    (hmap : mapGet s.pending x = some tok) (htok : tok < s.waiters.length)
    (hw : s.waiters.getD tok wDefault = freshWaiter x)
    (hm : ∀ m ∈ msgs, m.id = x ∧ isTerminal m = false)
    (ht : t.id = x) (htt : isTerminal t = true) :
    (((msgs ++ [t]).foldl onResponse s).waiters.getD tok wDefault).settled =
      some (.resolved (msgs ++ [t]))
    ∧ mapGet ((msgs ++ [t]).foldl onResponse s).pending x = none
    ∧ (msgs ++ [t]).filter (fun r => isTerminal r) = [t] := by
  have hfold := foldl_onResponse_nonterminal msgs s x tok hmap htok hm
  have hmapt : mapGet (msgs.foldl onResponse s).pending t.id = some tok := by
    rw [ht, hfold.1]; exact hmap
  have htok1 : tok < (msgs.foldl onResponse s).waiters.length := by
    rw [hfold.2.1]; exact htok
  have hstep := onResponse_terminal (msgs.foldl onResponse s) t tok hmapt htt
  have happ : (msgs ++ [t]).foldl onResponse s = onResponse (msgs.foldl onResponse s) t := by
    rw [List.foldl_append]
    rfl
  have hmid : (msgs.foldl onResponse s).waiters.getD tok wDefault =
      { freshWaiter x with responses := msgs } := by
    rw [hfold.2.2.1, hw]
    simp [freshWaiter]
  refine ⟨?_, ?_, ?_⟩
  · rw [happ, hstep]
    have := getD_set_self (msgs.foldl onResponse s).waiters tok
      (settleW (clearTimerW (appendResp ((msgs.foldl onResponse s).waiters.getD tok wDefault) t))
        (.resolved (((msgs.foldl onResponse s).waiters.getD tok wDefault).responses ++ [t])))
      wDefault htok1
    rw [this, hmid]
    simp [settleW, clearTimerW, freshWaiter, appendResp]
  · rw [happ, hstep]
    have : mapGet (mapDelete (msgs.foldl onResponse s).pending t.id) x = none := by
      rw [ht]
      exact mapGet_delete_self _ _
    exact this
  · rw [List.filter_append]
    have hnil : msgs.filter (fun r => isTerminal r) = [] := by
      rw [List.filter_eq_nil_iff]
      intro a ha
      simp [(hm a ha).2]
    rw [hnil]
    simp [htt]

/-- Witness for C3: on a connected transport with a registered waiter for id
"1", a single matching `ok` message resolves the future with exactly that
message. -/
theorem send_resolves_witness :
    ((([] ++ [({ id := "1", op := RespOp.ok, data := some "pid" } : Response)]).foldl onResponse
        { connState := .connected, socket := true, attemptPending := false,
          pending := [("1", 0)], waiters := [freshWaiter "1"], nextId := 2 }).waiters.getD 0
          wDefault).settled =
      some (.resolved [{ id := "1", op := RespOp.ok, data := some "pid" }]) :=
  (send_resolves_full_ordered_list
    { connState := .connected, socket := true, attemptPending := false,
      pending := [("1", 0)], waiters := [freshWaiter "1"], nextId := 2 }
    "1" 0 [] { id := "1", op := RespOp.ok, data := some "pid" }
    (by decide) (by decide) (by decide) (by simp) (by decide) (by decide)).1

lemma settleW_of_unsettled (w : Waiter) (o : SettleOutcome) (h : w.settled = none) :
    (settleW (clearTimerW w) o).settled = some o := by
  simp [settleW, clearTimerW, h]

lemma timerFire_active (s : TS) (tok : Nat)
    (h : (s.waiters.getD tok wDefault).timerActive = true) :
    timerFire s tok =
      { s with pending := mapDelete s.pending (s.waiters.getD tok wDefault).reqId,
               waiters := s.waiters.set tok
                 (settleW (clearTimerW (s.waiters.getD tok wDefault)) .rejectedTimeout) } := by
  simp only [timerFire]
  rw [h]
  simp

/-- Claim C4: when a `send`'s per-request timer fires before any terminal
message arrives, the future rejects with a timeout condition and the waiter
is removed from the routing table, so a later message for that id is dropped
and does not resolve the future; the waiter of any other in-flight exchange
is untouched, as is its routing-table entry. -/
theorem send_timeout_rejects_and_isolates (s : TS) (x y : String) (tok tok' : Nat)
    (late : Response)
    (hmap : mapGet s.pending x = some tok) (htok : tok < s.waiters.length)
    (hreq : (s.waiters.getD tok wDefault).reqId = x)
    (htimer : (s.waiters.getD tok wDefault).timerActive = true)
    (hunset : (s.waiters.getD tok wDefault).settled = none)
    (hxy : y ≠ x) (hmap' : mapGet s.pending y = some tok') (htt : tok' ≠ tok)
    (hlate : late.id = x) :
    ((timerFire s tok).waiters.getD tok wDefault).settled = some SettleOutcome.rejectedTimeout
    ∧ mapGet (timerFire s tok).pending x = none
    ∧ onResponse (timerFire s tok) late = timerFire s tok
    ∧ mapGet (timerFire s tok).pending y = some tok'
    ∧ (timerFire s tok).waiters.getD tok' wDefault = s.waiters.getD tok' wDefault := by
  have hstep := timerFire_active s tok htimer
  have hdel : mapGet (timerFire s tok).pending x = none := by
    rw [hstep]
    show mapGet (mapDelete s.pending (s.waiters.getD tok wDefault).reqId) x = none
    rw [hreq]
    exact mapGet_delete_self _ _
  refine ⟨?_, hdel, ?_, ?_, ?_⟩
  · rw [hstep]
    have := getD_set_self s.waiters tok
      (settleW (clearTimerW (s.waiters.getD tok wDefault)) .rejectedTimeout) wDefault htok
    rw [this]
    simp only [settleW, clearTimerW]
    rw [hunset]
    simp
  · apply onResponse_drop
    rw [hlate]
    exact hdel
  · rw [hstep]
    show mapGet (mapDelete s.pending (s.waiters.getD tok wDefault).reqId) y = some tok'
    rw [hreq, mapGet_delete_ne s.pending x y hxy]
    exact hmap'
  · rw [hstep]
    exact getD_set_ne _ _ _ _ _ htt

/-- A connected transport with two registered batch waiters, for witnesses. -/
def twoWaiterTS : TS :=
  { connState := .connected, socket := true, attemptPending := false,
    pending := [("1", 0), ("2", 1)], waiters := [freshWaiter "1", freshWaiter "2"],
    nextId := 3 }

/-- Witness for C4 on a concrete two-exchange state: the timed-out exchange
rejects and later messages for it are dropped, while the other exchange's
waiter and routing entry survive. -/
theorem send_timeout_witness :
    ((timerFire twoWaiterTS 0).waiters.getD 0 wDefault).settled =
      some SettleOutcome.rejectedTimeout
    ∧ onResponse (timerFire twoWaiterTS 0) { id := "1", op := RespOp.item, data := some "x" } =
        timerFire twoWaiterTS 0
    ∧ mapGet (timerFire twoWaiterTS 0).pending "2" = some 1 :=
  ⟨(send_timeout_rejects_and_isolates twoWaiterTS "1" "2" 0 1
      { id := "1", op := RespOp.item, data := some "x" }
      (by decide) (by decide) (by decide) (by decide) (by decide) (by decide) (by decide)
      (by decide) (by decide)).1,
   (send_timeout_rejects_and_isolates twoWaiterTS "1" "2" 0 1
      { id := "1", op := RespOp.item, data := some "x" }
      (by decide) (by decide) (by decide) (by decide) (by decide) (by decide) (by decide)
      (by decide) (by decide)).2.2.1,
   (send_timeout_rejects_and_isolates twoWaiterTS "1" "2" 0 1
      { id := "1", op := RespOp.item, data := some "x" }
      (by decide) (by decide) (by decide) (by decide) (by decide) (by decide) (by decide)
      (by decide) (by decide)).2.2.2.1⟩

lemma send_connected (s : TS) (req : Request) (hs : s.socket = true)
    (hc : s.connState = ConnState.connected) :
    send s req true =
      ({ s with waiters := s.waiters ++ [freshWaiter req.id],
                pending := mapSet s.pending req.id s.waiters.length },
        .registered s.waiters.length) := by
  simp [send, hs, hc]

/-- Claim C10: calling `send` again with a request id that already has a
pending waiter silently overwrites the routing-table entry: the table then
maps the id to the new waiter, dispatch no longer reaches the earlier waiter
(a message for the id leaves it untouched), and when the earlier waiter's
timer fires it rejects that waiter with a timeout and deletes the table entry
keyed by the id — which at that point is the later waiter's entry, leaving
the later waiter unsettled and unreachable. -/
theorem duplicate_id_overwrites_waiter (s : TS) (req : Request) (tok1 : Nat) (m : Response)
    (hs : s.socket = true) (hc : s.connState = ConnState.connected)
    (hmap : mapGet s.pending req.id = some tok1) (h1 : tok1 < s.waiters.length)
    (hreq : (s.waiters.getD tok1 wDefault).reqId = req.id)
    (htimer : (s.waiters.getD tok1 wDefault).timerActive = true)
    (hunset : (s.waiters.getD tok1 wDefault).settled = none)
    (hm : m.id = req.id) (hmt : isTerminal m = false) :
    (send s req true).2 = .registered s.waiters.length
    ∧ mapGet (send s req true).1.pending req.id = some s.waiters.length
    ∧ (send s req true).1.waiters.getD tok1 wDefault = s.waiters.getD tok1 wDefault
    ∧ (onResponse (send s req true).1 m).waiters.getD tok1 wDefault =
        s.waiters.getD tok1 wDefault
    ∧ ((timerFire (send s req true).1 tok1).waiters.getD tok1 wDefault).settled =
        some SettleOutcome.rejectedTimeout
    ∧ mapGet (timerFire (send s req true).1 tok1).pending req.id = none
    ∧ ((timerFire (send s req true).1 tok1).waiters.getD s.waiters.length wDefault).settled =
        none := by
  have hsend := send_connected s req hs hc
  have hne : tok1 ≠ s.waiters.length := Nat.ne_of_lt h1
  have hget1 : (send s req true).1.waiters.getD tok1 wDefault = s.waiters.getD tok1 wDefault := by
    rw [hsend]
    exact getD_append_left _ _ _ _ h1
  have hlen2 : (send s req true).1.waiters.length = s.waiters.length + 1 := by
    rw [hsend]
    simp
  have hmap2 : mapGet (send s req true).1.pending req.id = some s.waiters.length := by
    rw [hsend]
    exact mapGet_set_self _ _ _
  refine ⟨?_, hmap2, hget1, ?_, ?_, ?_, ?_⟩
  · rw [hsend]
  · have hmapm : mapGet (send s req true).1.pending m.id = some s.waiters.length := by
      rw [hm]
      exact hmap2
    rw [onResponse_nonterminal (send s req true).1 m s.waiters.length hmapm hmt]
    have := getD_set_ne (send s req true).1.waiters s.waiters.length tok1
      (appendResp ((send s req true).1.waiters.getD s.waiters.length wDefault) m) wDefault hne
    rw [this]
    exact hget1
  · have htimer2 : ((send s req true).1.waiters.getD tok1 wDefault).timerActive = true := by
      rw [hget1]
      exact htimer
    rw [timerFire_active (send s req true).1 tok1 htimer2]
    have := getD_set_self (send s req true).1.waiters tok1
      (settleW (clearTimerW ((send s req true).1.waiters.getD tok1 wDefault))
        .rejectedTimeout) wDefault (by rw [hlen2]; omega)
    rw [this, hget1]
    exact settleW_of_unsettled _ _ hunset
  · have htimer2 : ((send s req true).1.waiters.getD tok1 wDefault).timerActive = true := by
      rw [hget1]
      exact htimer
    rw [timerFire_active (send s req true).1 tok1 htimer2]
    show mapGet (mapDelete (send s req true).1.pending
      ((send s req true).1.waiters.getD tok1 wDefault).reqId) req.id = none
    rw [hget1, hreq]
    exact mapGet_delete_self _ _
  · have htimer2 : ((send s req true).1.waiters.getD tok1 wDefault).timerActive = true := by
      rw [hget1]
      exact htimer
    rw [timerFire_active (send s req true).1 tok1 htimer2]
    have := getD_set_ne (send s req true).1.waiters tok1 s.waiters.length
      (settleW (clearTimerW ((send s req true).1.waiters.getD tok1 wDefault))
        .rejectedTimeout) wDefault (fun e => hne e.symm)
    rw [this, hsend]
    show ((s.waiters ++ [freshWaiter req.id]).getD s.waiters.length wDefault).settled = none
    rw [getD_append_length]
    rfl

/-- A connected transport with a single registered batch waiter for id "1". -/
def oneWaiterTS : TS :=
  { connState := .connected, socket := true, attemptPending := false,
    pending := [("1", 0)], waiters := [freshWaiter "1"], nextId := 2 }

/-- Witness for C10: re-sending id "1" overwrites its routing entry; the old
waiter's timer then rejects the old waiter and deletes the new waiter's
entry, stranding the new waiter unsettled. -/
theorem duplicate_id_overwrites_witness :
    mapGet (send oneWaiterTS { id := "1", call := "again" } true).1.pending "1" = some 1
    ∧ ((timerFire (send oneWaiterTS { id := "1", call := "again" } true).1 0).waiters.getD 0
        wDefault).settled = some SettleOutcome.rejectedTimeout
    ∧ mapGet (timerFire (send oneWaiterTS { id := "1", call := "again" } true).1 0).pending "1" =
        none
    ∧ ((timerFire (send oneWaiterTS { id := "1", call := "again" } true).1 0).waiters.getD 1
        wDefault).settled = none :=
  ⟨(duplicate_id_overwrites_waiter oneWaiterTS { id := "1", call := "again" } 0
      { id := "1", op := RespOp.item } (by decide) (by decide) (by decide) (by decide)
      (by decide) (by decide) (by decide) (by decide) (by decide)).2.1,
   (duplicate_id_overwrites_waiter oneWaiterTS { id := "1", call := "again" } 0
      { id := "1", op := RespOp.item } (by decide) (by decide) (by decide) (by decide)
      (by decide) (by decide) (by decide) (by decide) (by decide)).2.2.2.2.1,
   (duplicate_id_overwrites_waiter oneWaiterTS { id := "1", call := "again" } 0
      { id := "1", op := RespOp.item } (by decide) (by decide) (by decide) (by decide)
      (by decide) (by decide) (by decide) (by decide) (by decide)).2.2.2.2.2.1,
   (duplicate_id_overwrites_waiter oneWaiterTS { id := "1", call := "again" } 0
      { id := "1", op := RespOp.item } (by decide) (by decide) (by decide) (by decide)
      (by decide) (by decide) (by decide) (by decide) (by decide)).2.2.2.2.2.2⟩

/-! Teardown lemmas for `close`. -/

lemma closeFold_length (l : List (String × Nat)) (ws : List Waiter) :
    (closeFold l ws).length = ws.length := by
  induction l generalizing ws with
  | nil => rfl
  | cons p l' ih =>
    show (closeFold l' (setW ws p.2 _)).length = ws.length
    rw [ih]
    simp [setW]

lemma settleW_keeps_settled (w : Waiter) (o o' : SettleOutcome)
    (h : w.settled = some o) : (settleW (clearTimerW w) o').settled = some o := by
  simp [settleW, clearTimerW, h]

lemma closeFold_keeps_settled (l : List (String × Nat)) (ws : List Waiter) (tok : Nat)
    (o : SettleOutcome) (h : (ws.getD tok wDefault).settled = some o) :
    ((closeFold l ws).getD tok wDefault).settled = some o := by
  induction l generalizing ws with
  | nil => exact h
  | cons p l' ih =>
    show ((closeFold l' (setW ws p.2 (fun w => settleW (clearTimerW w)
        (.rejectedConn "ECONNRESET" "Connection closed")))).getD tok wDefault).settled = some o
    apply ih
    by_cases he : tok = p.2
    · by_cases hlt : tok < ws.length
      · rw [he, setW, getD_set_self _ _ _ _ (he ▸ hlt)]
        exact settleW_keeps_settled _ _ _ (he ▸ h)
      · rw [getD_of_ge ws tok wDefault (by omega)] at h
        simp [wDefault] at h
    · rw [setW, getD_set_ne _ _ _ _ _ he]
      exact h

lemma closeFold_settles (l : List (String × Nat)) (ws : List Waiter) (x : String) (tok : Nat)
    (hmem : (x, tok) ∈ l) (htok : tok < ws.length)
    (hun : (ws.getD tok wDefault).settled = none) :
    ((closeFold l ws).getD tok wDefault).settled =
      some (.rejectedConn "ECONNRESET" "Connection closed") := by
  induction l generalizing ws with
  | nil => simp at hmem
  | cons p l' ih =>
    show ((closeFold l' (setW ws p.2 (fun w => settleW (clearTimerW w)
        (.rejectedConn "ECONNRESET" "Connection closed")))).getD tok wDefault).settled = _
    by_cases he : tok = p.2
    · have hset : ((setW ws p.2 (fun w => settleW (clearTimerW w)
          (.rejectedConn "ECONNRESET" "Connection closed"))).getD tok wDefault).settled =
          some (.rejectedConn "ECONNRESET" "Connection closed") := by
        rw [he, setW, getD_set_self _ _ _ _ (he ▸ htok)]
        exact settleW_of_unsettled _ _ (he ▸ hun)
      exact closeFold_keeps_settled l' _ tok _ hset
    · have hmem' : (x, tok) ∈ l' := by
        rcases List.mem_cons.mp hmem with h1 | h1
        · exact absurd (congrArg Prod.snd h1) he
        · exact h1
      refine ih (setW ws p.2 _) hmem' ?_ ?_
      · rw [setW]
        simpa [List.length_set] using htok
      · rw [setW, getD_set_ne _ _ _ _ _ he]
        exact hun

/-- Claim C6: `close()` is idempotent and callable from any state — a no-op
when already disconnected with nothing pending — and otherwise tears the
stream down, sets the state to `disconnected`, and completes every waiter
currently in the routing table exactly once with a connection-reset failure,
emptying the table; an already-settled promise is never settled again. -/
theorem close_idempotent_and_flushes (s : TS) :
    close (close s) = close s
    ∧ (close s).connState = ConnState.disconnected
    ∧ (close s).socket = false
    ∧ (close s).pending = []
    ∧ (s.connState = ConnState.disconnected ∧ s.socket = false ∧ s.pending = [] →
        close s = s)
    ∧ (∀ x tok, mapGet s.pending x = some tok → tok < s.waiters.length →
        (s.waiters.getD tok wDefault).settled = none →
        ((close s).waiters.getD tok wDefault).settled =
          some (.rejectedConn "ECONNRESET" "Connection closed"))
    ∧ (∀ tok o, (s.waiters.getD tok wDefault).settled = some o →
        ((close s).waiters.getD tok wDefault).settled = some o) := by
  refine ⟨rfl, rfl, rfl, rfl, ?_, ?_, ?_⟩
  · rintro ⟨h1, h2, h3⟩
    obtain ⟨cs, sk, ap, pd, ws, ni⟩ := s
    simp_all [close, closeFold]
  · intro x tok hmap htok hun
    exact closeFold_settles s.pending s.waiters x tok (mapGet_mem hmap) htok hun
  · intro tok o h
    exact closeFold_keeps_settled s.pending s.waiters tok o h

/-- Witness for C6: closing a connected transport with two pending waiters
rejects both with the connection-reset failure; closing a fresh disconnected
transport is a no-op. -/
theorem close_idempotent_witness :
    ((close twoWaiterTS).waiters.getD 0 wDefault).settled =
      some (.rejectedConn "ECONNRESET" "Connection closed")
    ∧ ((close twoWaiterTS).waiters.getD 1 wDefault).settled =
      some (.rejectedConn "ECONNRESET" "Connection closed")
    ∧ close TS.init = TS.init :=
  ⟨(close_idempotent_and_flushes twoWaiterTS).2.2.2.2.2.1 "1" 0 (by decide) (by decide)
      (by decide),
   (close_idempotent_and_flushes twoWaiterTS).2.2.2.2.2.1 "2" 1 (by decide) (by decide)
      (by decide),
   (close_idempotent_and_flushes TS.init).2.2.2.2.1 (by decide)⟩

/-- Claim C1: on a connected transport with a pending waiter for an id, an
`error`-tagged terminal message for that id completes the exchange carrying
the remote code and message, and the client call layer surfaces it as a
protocol failure (`SyscallError`) holding that code — a failure distinct from
every transport-level connection or timeout failure. -/
theorem error_response_surfaces_protocol_error (s : TS) (x code msg name : String) (tok : Nat)
    (hmap : mapGet s.pending x = some tok) (htok : tok < s.waiters.length)
    (hw : s.waiters.getD tok wDefault = freshWaiter x) :
    ((onResponse s { id := x, op := RespOp.error, code := code, message := msg }).waiters.getD
        tok wDefault).settled =
      some (.resolved [{ id := x, op := RespOp.error, code := code, message := msg }])
    ∧ callClassify name [{ id := x, op := RespOp.error, code := code, message := msg }] =
        .error (.syscallFail code msg (some name))
    ∧ (∀ c m2, CallFailure.syscallFail code msg (some name) ≠ .connectionFail c m2)
    ∧ (∀ m2, CallFailure.syscallFail code msg (some name) ≠ .timeoutFail m2) := by
  refine ⟨?_, ?_, ?_, ?_⟩
  · have hstep := onResponse_terminal s
      { id := x, op := RespOp.error, code := code, message := msg } tok hmap rfl
    rw [hstep]
    have := getD_set_self s.waiters tok
      (settleW
        (clearTimerW (appendResp (s.waiters.getD tok wDefault)
          { id := x, op := RespOp.error, code := code, message := msg }))
        (.resolved ((s.waiters.getD tok wDefault).responses ++
          [{ id := x, op := RespOp.error, code := code, message := msg }])))
      wDefault htok
    rw [this, hw]
    simp [freshWaiter, appendResp, settleW, clearTimerW]
  · rfl
  · intro c m2
    simp
  · intro m2
    simp

/-- The spec's concrete protocol-error scenario message. -/
def enoentResp : Response :=
  { id := "1", op := RespOp.error, code := "ENOENT", message := "not found" }

/-- Witness for C1 at the spec's concrete scenario: the remote answers
request "1" with code `ENOENT`, and the call layer surfaces a protocol
failure carrying `ENOENT`. -/
theorem error_response_protocol_witness :
    ((onResponse oneWaiterTS enoentResp).waiters.getD 0 wDefault).settled =
      some (.resolved [enoentResp])
    ∧ callClassify "file:stat" [enoentResp] =
      .error (.syscallFail "ENOENT" "not found" (some "file:stat")) :=
  ⟨(error_response_surfaces_protocol_error oneWaiterTS "1" "ENOENT" "not found" "file:stat" 0
      (by decide) (by decide) (by decide)).1,
   (error_response_surfaces_protocol_error oneWaiterTS "1" "ENOENT" "not found" "file:stat" 0
      (by decide) (by decide) (by decide)).2.1⟩

/-! Decimal rendering: `Nat.repr` is injective, via an explicit decimal
evaluator for the digit strings produced by `Nat.toDigitsCore`. -/

lemma digitChar_val (d : Nat) (h : d < 10) : (Nat.digitChar d).toNat - 48 = d := by
  interval_cases d <;> rfl

lemma decVal_toDigitsCore (f : Nat) :
    ∀ (n : Nat) (acc : List Char), n < 10 ^ f →
      decVal (Nat.toDigitsCore 10 f n acc) = n * 10 ^ acc.length + decVal acc := by
  induction f with
  | zero =>
    intro n acc h
    have hn : n = 0 := by simpa using h
    subst hn
    simp [Nat.toDigitsCore]
  | succ f ih =>
    intro n acc h
    by_cases h0 : n / 10 = 0
    · have hn : n < 10 := by omega
      have hmod : n % 10 = n := Nat.mod_eq_of_lt hn
      simp only [Nat.toDigitsCore, h0, if_pos]
      simp only [decVal]
      rw [digitChar_val (n % 10) (Nat.mod_lt n (by norm_num)), hmod]
    · have hlt : n / 10 < 10 ^ f := by
        have h10 : (0:Nat) < 10 := by norm_num
        rw [Nat.div_lt_iff_lt_mul h10]
        calc n < 10 ^ (f + 1) := h
          _ = 10 ^ f * 10 := by rw [pow_succ]
      simp only [Nat.toDigitsCore, h0]
      rw [if_neg not_false]
      rw [ih (n / 10) (Nat.digitChar (n % 10) :: acc) hlt]
      simp only [decVal, List.length_cons]
      rw [digitChar_val (n % 10) (Nat.mod_lt n (by norm_num))]
      have key : n / 10 * 10 ^ (acc.length + 1) + n % 10 * 10 ^ acc.length =
          n * 10 ^ acc.length := by
        calc n / 10 * 10 ^ (acc.length + 1) + n % 10 * 10 ^ acc.length
            = (10 * (n / 10) + n % 10) * 10 ^ acc.length := by ring
          _ = n * 10 ^ acc.length := by rw [Nat.div_add_mod]
      rw [← Nat.add_assoc, key]

lemma decVal_repr (n : Nat) : decVal (Nat.repr n).data = n := by
  have hfuel : n < 10 ^ (n + 1) := by
    calc n < 10 ^ n := Nat.lt_pow_self (by norm_num) n
      _ ≤ 10 ^ (n + 1) := Nat.pow_le_pow_right (by norm_num) (Nat.le_succ n)
  have := decVal_toDigitsCore (n + 1) n [] hfuel
  simpa [Nat.repr, Nat.toDigits, List.asString, decVal] using this

lemma reprNat_injective {m n : Nat} (h : Nat.repr m = Nat.repr n) : m = n := by
  have hm := decVal_repr m
  rw [h] at hm
  rw [decVal_repr n] at hm
  exact hm.symm

lemma genIds_eq (s : TS) (n : Nat) :
    genIds s n = (List.range n).map (fun k => Nat.repr (s.nextId + k)) := by
  induction n generalizing s with
  | zero => rfl
  | succ n ih =>
    have harith : ∀ k : Nat, s.nextId + 1 + k = s.nextId + (k + 1) := by omega
    simp only [genIds, generateId, ih, List.range_succ_eq_map, List.map_cons, List.map_map]
    refine congrArg₂ List.cons (by simp) ?_
    apply List.map_congr_left
    intro k hk
    simp [Function.comp, harith k]

lemma genIds_getD (s : TS) (n i : Nat) (h : i < n) :
    (genIds s n).getD i "" = Nat.repr (s.nextId + i) := by
  rw [genIds_eq]
  rw [List.getD]
  simp [List.getElem?_map, List.getElem?_range, h]

/-- Claim C7: the ids returned by successive `generateId()` calls on one
transport instance are the strictly increasing counter sequence starting at 1
rendered as strings ("1", "2", "3", ...); no id ever repeats, and no other
operation — close, connect and its attempt callbacks, dispatch, send, stream
registration or a timer — resets or otherwise changes the counter, so ids
stay fresh even across reconnects. -/
theorem generateId_strictly_increasing (n i j : Nat) (s : TS) (r : Response) (req : Request)
    (w : Bool) (tok : Nat) :
    genIds TS.init n = (List.range n).map (fun k => Nat.repr (k + 1))
    ∧ (i < n → j < n → i ≠ j → (genIds s n).getD i "" ≠ (genIds s n).getD j "")
    ∧ (close s).nextId = s.nextId
    ∧ (onCloseEv s).nextId = s.nextId
    ∧ (connectBegin s).1.nextId = s.nextId
    ∧ (attemptOpen s).1.nextId = s.nextId
    ∧ (attemptTimeout s).1.nextId = s.nextId
    ∧ (attemptRefused s "").1.nextId = s.nextId
    ∧ (onResponse s r).nextId = s.nextId
    ∧ (send s req w).1.nextId = s.nextId
    ∧ (streamStart s req).1.nextId = s.nextId
    ∧ (timerFire s tok).nextId = s.nextId := by
  refine ⟨?_, ?_, rfl, rfl, ?_, ?_, ?_, ?_, ?_, ?_, ?_, ?_⟩
  · rw [genIds_eq]
    apply List.map_congr_left
    intro k hk
    rw [Nat.add_comm]
    rfl
  · intro hi hj hij he
    rw [genIds_getD s n i hi, genIds_getD s n j hj] at he
    have := reprNat_injective he
    omega
  · unfold connectBegin
    split <;> rfl
  · unfold attemptOpen
    split <;> rfl
  · unfold attemptTimeout
    split <;> rfl
  · unfold attemptRefused
    split <;> rfl
  · cases hx : mapGet s.pending r.id with
    | none => rw [onResponse_drop s r hx]
    | some tk =>
      cases ht : isTerminal r with
      | false => rw [onResponse_nonterminal s r tk hx ht]
      | true => rw [onResponse_terminal s r tk hx ht]
  · unfold send
    split
    · rfl
    · split <;> rfl
  · unfold streamStart
    split <;> rfl
  · unfold timerFire
    dsimp only
    split <;> rfl

/-- Witness for C7: the first two generated ids differ, and closing a
transport leaves the counter unchanged. -/
theorem generateId_witness :
    (genIds TS.init 3).getD 0 "" ≠ (genIds TS.init 3).getD 1 ""
    ∧ (close oneWaiterTS).nextId = oneWaiterTS.nextId :=
  ⟨(generateId_strictly_increasing 3 0 1 TS.init enoentResp { id := "1", call := "x" }
      true 0).2.1 (by decide) (by decide) (by decide),
   (generateId_strictly_increasing 3 0 1 oneWaiterTS enoentResp { id := "1", call := "x" }
      true 0).2.2.1⟩
